import Mathlib

/-
  Verification of the netbooks repository (two tutorial notebooks:
  netZooPy/dragon_tutorial.ipynb, in Python, and
  netZooR/panda_gtex_tutorial_server.ipynb, in R).

  The notebooks are embedded as lists of code cells over a small
  expression / statement language that mirrors the R and Python
  constructs actually used: variables, literals, function calls
  (curried application spines), binary and unary operators, indexing,
  field access (R attr-slot and dollar access), anonymous functions,
  conditionals, for-loops, sequencing, and a try-catch form (present
  in the language so that its absence from the notebooks is a
  meaningful statement).  Specific computations the claims are about
  (the edges-cell index arithmetic, the expression-row filter, the
  expression-preprocessing pipeline, the DRAGON p1/p2 dataflow) are
  additionally modelled as executable functions on Nat / Int / Rat.
-/

namespace Netbooks

/-- Expressions of the embedded notebook language.  A function call
`f(a, b)` is encoded as an application spine `app (app (fnref f) a) b`;
the helper `callN` below builds such spines. -/
inductive RExpr where
  | var (name : String)
  | lit (v : String)
  | fnref (name : String)
  | app (f a : RExpr)
  | binop (op : String) (l r : RExpr)
  | unop (op : String) (e : RExpr)
  | narg (name : String) (e : RExpr)
  | index (base idx : RExpr)
  | field (base : RExpr) (name : String)
  | lam (param : String) (body : RExpr)
  | missing
  deriving DecidableEq, Repr

/-- Build the application spine of a call with a named function head. -/
def callN (f : String) (args : List RExpr) : RExpr :=
  args.foldl RExpr.app (RExpr.fnref f)

/-- Statements of the embedded notebook language. -/
inductive RStmt where
  | assign (lhs rhs : RExpr)
  | exprS (e : RExpr)
  | ifS (cond : RExpr) (thn els : RStmt)
  | forS (v : String) (range : RExpr) (body : RStmt)
  | seqS (a b : RStmt)
  | skip
  | tryS (body handler : RStmt)
  deriving DecidableEq, Repr

/-- Names of all functions referenced in an expression (including
inside anonymous-function bodies). -/
def RExpr.fns : RExpr → List String
  | .var _ => []
  | .lit _ => []
  | .fnref s => [s]
  | .app f a => f.fns ++ a.fns
  | .binop _ l r => l.fns ++ r.fns
  | .unop _ e => e.fns
  | .narg _ e => e.fns
  | .index b i => b.fns ++ i.fns
  | .field b _ => b.fns
  | .lam _ body => body.fns
  | .missing => []

/-- Names of all functions referenced in a statement. -/
def RStmt.fns : RStmt → List String
  | .assign l r => l.fns ++ r.fns
  | .exprS e => e.fns
  | .ifS c t e => c.fns ++ t.fns ++ e.fns
  | .forS _ r b => r.fns ++ b.fns
  | .seqS a b => a.fns ++ b.fns
  | .skip => []
  | .tryS b h => b.fns ++ h.fns

/-- Binary operators occurring in an expression. -/
def RExpr.ops : RExpr → List String
  | .var _ => []
  | .lit _ => []
  | .fnref _ => []
  | .app f a => f.ops ++ a.ops
  | .binop o l r => o :: (l.ops ++ r.ops)
  | .unop o e => o :: e.ops
  | .narg _ e => e.ops
  | .index b i => b.ops ++ i.ops
  | .field b _ => b.ops
  | .lam _ body => body.ops
  | .missing => []

/-- Binary operators occurring in a statement. -/
def RStmt.ops : RStmt → List String
  | .assign l r => l.ops ++ r.ops
  | .exprS e => e.ops
  | .ifS c t e => c.ops ++ t.ops ++ e.ops
  | .forS _ r b => r.ops ++ b.ops
  | .seqS a b => a.ops ++ b.ops
  | .skip => []
  | .tryS b h => b.ops ++ h.ops

/-- Does a statement contain a conditional branch? -/
def RStmt.hasIf : RStmt → Bool
  | .assign _ _ => false
  | .exprS _ => false
  | .ifS _ _ _ => true
  | .forS _ _ b => b.hasIf
  | .seqS a b => a.hasIf || b.hasIf
  | .skip => false
  | .tryS b h => b.hasIf || h.hasIf

/-- Does a statement contain a loop? -/
def RStmt.hasFor : RStmt → Bool
  | .assign _ _ => false
  | .exprS _ => false
  | .ifS _ t e => t.hasFor || e.hasFor
  | .forS _ _ _ => true
  | .seqS a b => a.hasFor || b.hasFor
  | .skip => false
  | .tryS b h => b.hasFor || h.hasFor

/-- Does a statement contain a try-catch error-handling construct? -/
def RStmt.hasTry : RStmt → Bool
  | .assign _ _ => false
  | .exprS _ => false
  | .ifS _ t e => t.hasTry || e.hasTry
  | .forS _ _ b => b.hasTry
  | .seqS a b => a.hasTry || b.hasTry
  | .skip => false
  | .tryS _ _ => true

/-- A code cell is a list of top-level statements. -/
abbrev Cell := List RStmt

/-- All function names referenced in a cell. -/
def cellFns (c : Cell) : List String := (c.map RStmt.fns).flatten

/-- All binary operators occurring in a cell. -/
def cellOps (c : Cell) : List String := (c.map RStmt.ops).flatten

/-- Does a cell contain a conditional branch or a loop? -/
def cellHasCondOrLoop (c : Cell) : Bool := c.any (fun s => s.hasIf || s.hasFor)

/-- Does a cell contain a try-catch construct? -/
def cellHasTry (c : Cell) : Bool := c.any RStmt.hasTry

open RExpr RStmt

/-! ### Embedding of src/netbooks/netZooPy/dragon_tutorial.ipynb (Python)

Each `dragonC<k>` is the k-th code cell of the notebook, statement by
statement.  Python imports are encoded as calls to the pseudo-functions
`py_from_star` (a star-import from a module), `py_import_as` (a module
aliased on loading) and `py_from` (selected names loaded from a module),
with the module and names as literal arguments. -/

/-- Cell 1: module loading.
`from netZooPy.dragon ...* / matplotlib.pyplot as plt / numpy as np /
mpl_toolkits.mplot3d Axes3D, art3d`. -/
def dragonC1 : Cell :=
  [ exprS (callN "py_from_star" [lit "netZooPy.dragon"]),
    exprS (callN "py_import_as" [lit "matplotlib.pyplot", lit "plt"]),
    exprS (callN "py_import_as" [lit "numpy", lit "np"]),
    exprS (callN "py_from" [lit "mpl_toolkits.mplot3d", lit "Axes3D", lit "art3d"]) ]

/-- Cell 2: `n = 1000`, `p1 = 500`, `p2 = 100`. -/
def dragonC2 : Cell :=
  [ assign (var "n") (lit "1000"),
    assign (var "p1") (lit "500"),
    assign (var "p2") (lit "100") ]

/-- Cell 3: `X1, X2, Theta, _ = simulate_dragon_data(eta11=0.005,
eta12=0.005, eta22=0.05, p1=100, p2=500, epsilon=[0.1,0.1], n=n,
seed=123)`. -/
def dragonC3 : Cell :=
  [ assign (binop "," (var "X1") (binop "," (var "X2") (binop "," (var "Theta") (var "_"))))
      (callN "simulate_dragon_data"
        [ narg "eta11" (lit "0.005"), narg "eta12" (lit "0.005"), narg "eta22" (lit "0.05"),
          narg "p1" (lit "100"), narg "p2" (lit "500"),
          narg "epsilon" (callN "mklist" [lit "0.1", lit "0.1"]),
          narg "n" (var "n"), narg "seed" (lit "123") ]) ]

/-- Cell 4: `X1 = Scale(X1)`, `X2 = Scale(X2)`, `X1.shape`, `X2.shape`. -/
def dragonC4 : Cell :=
  [ assign (var "X1") (callN "Scale" [var "X1"]),
    assign (var "X2") (callN "Scale" [var "X2"]),
    exprS (field (var "X1") "shape"),
    exprS (field (var "X2") "shape") ]

/-- Cell 5: `lambdas, lambdas_landscape =
estimate_penalty_parameters_dragon(X1, X2)`, `print(lambdas)`. -/
def dragonC5 : Cell :=
  [ assign (binop "," (var "lambdas") (var "lambdas_landscape"))
      (callN "estimate_penalty_parameters_dragon" [var "X1", var "X2"]),
    exprS (callN "print" [var "lambdas"]) ]

/-- Cell 6: the regularization-landscape 3-d plot. -/
def dragonC6 : Cell :=
  [ assign (var "fig") (callN "plt.figure" []),
    assign (var "ax") (callN "plt.axes" [narg "projection" (lit "3d")]),
    assign (var "x") (callN "np.arange" [lit "0", lit "1.01", lit "0.01"]),
    exprS (callN "ax.contour3D"
      [var "x", var "x", var "lambdas_landscape", lit "50", narg "cmap" (lit "binary")]),
    assign (var "ind") (callN "np.unravel_index"
      [ callN "np.argmin" [var "lambdas_landscape", narg "axis" (lit "None")],
        field (var "lambdas_landscape") "shape" ]),
    exprS (callN "ax.plot"
      [ callN "mklist" [index (var "x") (callN "int" [index (var "ind") (lit "1")])],
        callN "mklist" [index (var "x") (callN "int" [index (var "ind") (lit "0")])],
        callN "mklist" [index (var "lambdas_landscape")
          (binop "," (callN "int" [index (var "ind") (lit "0")])
                     (callN "int" [index (var "ind") (lit "1")]))],
        narg "markerfacecolor" (lit "k"), narg "markeredgecolor" (lit "r"),
        narg "marker" (lit "o"), narg "markersize" (lit "7"), narg "alpha" (lit "1") ]),
    exprS (callN "ax.set_xlabel" [lit "$\\lambda_1$", narg "fontsize" (lit "16")]),
    exprS (callN "ax.set_ylabel" [lit "$\\lambda_2$", narg "labelpad" (lit "15"),
      narg "fontsize" (lit "16")]),
    exprS (callN "plt.show" []) ]

/-- Cell 7: `r = get_partial_correlation_dragon(X1, X2, lambdas)`,
`r.shape`. -/
def dragonC7 : Cell :=
  [ assign (var "r") (callN "get_partial_correlation_dragon" [var "X1", var "X2", var "lambdas"]),
    exprS (field (var "r") "shape") ]

/-- Cell 8: `adj_p_vals, p_vals = estimate_p_values_dragon(r, n, p1, p2,
lambdas)`. -/
def dragonC8 : Cell :=
  [ assign (binop "," (var "adj_p_vals") (var "p_vals"))
      (callN "estimate_p_values_dragon" [var "r", var "n", var "p1", var "p2", var "lambdas"]) ]

/-- Cell 9: `plt.imshow(Theta[0:20,0:20])`, `plt.colorbar()`, `plt.show()`. -/
def dragonC9 : Cell :=
  [ exprS (callN "plt.imshow" [index (var "Theta")
      (binop "," (binop ":" (lit "0") (lit "20")) (binop ":" (lit "0") (lit "20")))]),
    exprS (callN "plt.colorbar" []),
    exprS (callN "plt.show" []) ]

/-- Cell 10: `plt.imshow(adj_p_vals[0:20,0:20])`, `plt.colorbar()`,
`plt.show()`. -/
def dragonC10 : Cell :=
  [ exprS (callN "plt.imshow" [index (var "adj_p_vals")
      (binop "," (binop ":" (lit "0") (lit "20")) (binop ":" (lit "0") (lit "20")))]),
    exprS (callN "plt.colorbar" []),
    exprS (callN "plt.show" []) ]

/-- All code cells of the DRAGON notebook, in order. -/
def dragonCodeCells : List Cell :=
  [dragonC1, dragonC2, dragonC3, dragonC4, dragonC5,
   dragonC6, dragonC7, dragonC8, dragonC9, dragonC10]

/-- All statements of the DRAGON notebook, in order. -/
def dragonStmts : List RStmt := dragonCodeCells.flatten

/-! ### Embedding of src/netbooks/netZooR/panda_gtex_tutorial_server.ipynb (R)

Each `pandaC<k>` is the k-th code cell.  R braces group statements; a
braced block is encoded by sequencing its statements with `seqAll`. -/

/-- Sequence a list of statements into one statement. -/
def seqAll : List RStmt → RStmt
  | [] => .skip
  | [s] => s
  | s :: rest => .seqS s (seqAll rest)

/-- Cell 1: `runserver=1`. -/
def pandaC1 : Cell := [assign (var "runserver") (lit "1")]

/-- Cell 2: the local-installation block guarded by `if(runserver==0)`. -/
def pandaC2 : Cell :=
  [ ifS (binop "==" (var "runserver") (lit "0"))
      (seqAll
        [ exprS (callN "install.packages" [lit "devtools"]),
          exprS (callN "library" [lit "devtools"]),
          exprS (callN "devtools::install_github"
            [lit "netZoo/netZooR", narg "build_vignettes" (lit "FALSE")]),
          ifS (unop "!" (callN "requireNamespace" [lit "BiocManager", narg "quietly" (lit "TRUE")]))
            (exprS (callN "install.packages"
              [lit "BiocManager", narg "repos" (lit "http://cran.us.r-project.org")]))
            skip,
          exprS (callN "BiocManager::install" [lit "fgsea"]),
          exprS (callN "install.packages" [lit "ggplot2"]),
          exprS (callN "install.packages" [lit "reshape2"]) ])
      skip ]

/-- Cell 3: data-path selection, `if(runserver==1)` / `else if(runserver==0)`. -/
def pandaC3 : Cell :=
  [ ifS (binop "==" (var "runserver") (lit "1"))
      (assign (var "ppath") (lit "/opt/data/"))
      (ifS (binop "==" (var "runserver") (lit "0"))
        (assign (var "ppath") (lit ""))
        skip) ]

/-- Cell 4: the five `library(...)` loads. -/
def pandaC4 : Cell :=
  [ exprS (callN "library" [lit "netZooR"]),
    exprS (callN "library" [lit "fgsea"]),
    exprS (callN "library" [lit "ggplot2"]),
    exprS (callN "library" [lit "reshape2"]),
    exprS (callN "library" [lit "visNetwork"]) ]

/-- Cell 5: `motif <- read.delim(paste0(ppath,"motif_subset.txt"), ...)`;
`motif[1:5,]`. -/
def pandaC5 : Cell :=
  [ assign (var "motif") (callN "read.delim"
      [ callN "paste0" [var "ppath", lit "motif_subset.txt"],
        narg "stringsAsFactors" (lit "F"), narg "header" (lit "F") ]),
    exprS (index (var "motif") (binop "," (binop ":" (lit "1") (lit "5")) missing)) ]

/-- Cell 6: `ppi <- read.delim(paste0(ppath,"ppi_subset.txt"), ...)`;
`ppi[1:5,]`. -/
def pandaC6 : Cell :=
  [ assign (var "ppi") (callN "read.delim"
      [ callN "paste0" [var "ppath", lit "ppi_subset.txt"],
        narg "stringsAsFactors" (lit "F"), narg "header" (lit "F") ]),
    exprS (index (var "ppi") (binop "," (binop ":" (lit "1") (lit "5")) missing)) ]

/-- Cell 7: `exp <- read.delim(paste0(ppath,
"expression_tpm_lcl_blood_subset.txt"), stringsAsFactors = F,
check.names = F)`. -/
def pandaC7 : Cell :=
  [ assign (var "exp") (callN "read.delim"
      [ callN "paste0" [var "ppath", lit "expression_tpm_lcl_blood_subset.txt"],
        narg "stringsAsFactors" (lit "F"), narg "check.names" (lit "F") ]) ]

/-- Cell 8: `exp <- log2(exp+1)`. -/
def pandaC8 : Cell :=
  [ assign (var "exp") (callN "log2" [binop "+" (var "exp") (lit "1")]) ]

/-- Cell 9: `zero_na_counts <- apply(exp, MARGIN = 1, FUN = function(x)
length(x[(!is.na(x) & x!=0) ]))`. -/
def pandaC9 : Cell :=
  [ assign (var "zero_na_counts") (callN "apply"
      [ var "exp", narg "MARGIN" (lit "1"),
        narg "FUN" (lam "x" (callN "length"
          [ index (var "x")
              (binop "&" (unop "!" (callN "is.na" [var "x"]))
                         (binop "!=" (var "x") (lit "0"))) ])) ]) ]

/-- Cell 10: `exp <- exp[zero_na_counts > 20,]`. -/
def pandaC10 : Cell :=
  [ assign (var "exp") (index (var "exp")
      (binop "," (binop ">" (var "zero_na_counts") (lit "20")) missing)) ]

/-- Cell 11: `lcl_samples <-read.delim(paste0(ppath,"LCL_samples.txt"),
header=FALSE, stringsAsFactors=FALSE)`. -/
def pandaC11 : Cell :=
  [ assign (var "lcl_samples") (callN "read.delim"
      [ callN "paste0" [var "ppath", lit "LCL_samples.txt"],
        narg "header" (lit "FALSE"), narg "stringsAsFactors" (lit "FALSE") ]) ]

/-- Cell 12: `lcl_exp <- exp[,colnames(exp) %in% lcl_samples[,1]]`. -/
def pandaC12 : Cell :=
  [ assign (var "lcl_exp") (index (var "exp")
      (binop "," missing
        (binop "%in%" (callN "colnames" [var "exp"])
          (index (var "lcl_samples") (binop "," missing (lit "1")))))) ]

/-- Cell 13: `wblood_samples <-read.delim(paste0(ppath,
"WholeBlood_samples.txt"), header=FALSE, stringsAsFactors=FALSE)`. -/
def pandaC13 : Cell :=
  [ assign (var "wblood_samples") (callN "read.delim"
      [ callN "paste0" [var "ppath", lit "WholeBlood_samples.txt"],
        narg "header" (lit "FALSE"), narg "stringsAsFactors" (lit "FALSE") ]) ]

/-- Cell 14: `wb_exp <- exp[,colnames(exp) %in% wblood_samples[,1]]`. -/
def pandaC14 : Cell :=
  [ assign (var "wb_exp") (index (var "exp")
      (binop "," missing
        (binop "%in%" (callN "colnames" [var "exp"])
          (index (var "wblood_samples") (binop "," missing (lit "1")))))) ]

/-- Cell 15: `pandaLCL <- panda(motif, lcl_exp, ppi,
mode="intersection")`; `pandaLCL`. -/
def pandaC15 : Cell :=
  [ assign (var "pandaLCL") (callN "panda"
      [var "motif", var "lcl_exp", var "ppi", narg "mode" (lit "intersection")]),
    exprS (var "pandaLCL") ]

/-- Cell 16: `pandaWB <- panda(motif, wb_exp, ppi,
mode="intersection")`; `pandaWB`. -/
def pandaC16 : Cell :=
  [ assign (var "pandaWB") (callN "panda"
      [var "motif", var "wb_exp", var "ppi", narg "mode" (lit "intersection")]),
    exprS (var "pandaWB") ]

/-- Cell 17: `regNetLCL <- pandaLCL@regNet`; `regNetWB <-
pandaWB@regNet`; `regNetLCL[1:5,1:5]`. -/
def pandaC17 : Cell :=
  [ assign (var "regNetLCL") (field (var "pandaLCL") "regNet"),
    assign (var "regNetWB") (field (var "pandaWB") "regNet"),
    exprS (index (var "regNetLCL")
      (binop "," (binop ":" (lit "1") (lit "5")) (binop ":" (lit "1") (lit "5")))) ]

/-- Cell 18: `nDiffs= 200`; `diffNet = pandaLCL@regNet`;
`nTFs  = dim(diffNet)[1]`. -/
def pandaC18 : Cell :=
  [ assign (var "nDiffs") (lit "200"),
    assign (var "diffNet") (field (var "pandaLCL") "regNet"),
    assign (var "nTFs") (index (callN "dim" [var "diffNet"]) (lit "1")) ]

/-- Cell 19: construction of the `edges` dataframe for the top-200
edges of the LCL network (the first index-arithmetic cell). -/
def pandaC19 : Cell :=
  [ assign (var "edges") (callN "matrix" [lit "0L", var "nDiffs", lit "3"]),
    assign (callN "colnames" [var "edges"]) (callN "c" [lit "from", lit "to", lit "value"]),
    assign (var "edges") (callN "as.data.frame" [var "edges"]),
    assign (var "aa") (callN "order"
      [callN "as.matrix" [callN "abs" [var "diffNet"]], narg "decreasing" (lit "TRUE")]),
    assign (var "bb") (callN "sort"
      [callN "as.matrix" [callN "abs" [var "diffNet"]], narg "decreasing" (lit "TRUE")]),
    assign (field (var "edges") "value")
      (index (callN "as.matrix" [var "diffNet"])
             (index (var "aa") (binop ":" (lit "1") (var "nDiffs")))),
    assign (var "geneIdsTop")
      (binop "+" (binop "%/%" (index (var "aa") (binop ":" (lit "1") (var "nDiffs")))
                             (index (callN "dim" [var "diffNet"]) (lit "1")))
                 (lit "1")),
    assign (var "tfIdsTop")
      (binop "%%" (index (var "aa") (binop ":" (lit "1") (var "nDiffs")))
                  (index (callN "dim" [var "diffNet"]) (lit "1"))),
    assign (index (var "tfIdsTop") (binop "==" (var "tfIdsTop") (lit "0"))) (var "nTFs"),
    assign (field (var "edges") "to") (index (callN "colnames" [var "diffNet"]) (var "geneIdsTop")),
    assign (field (var "edges") "from") (index (callN "rownames" [var "diffNet"]) (var "tfIdsTop")),
    assign (field (var "edges") "arrows") (lit "to"),
    assign (field (var "edges") "value") (field (var "edges") "value") ]

/-- Cell 20: the `nodes` dataframe for the first network plot. -/
def pandaC20 : Cell :=
  [ assign (var "nodes") (callN "data.frame"
      [ narg "id" (callN "unique" [callN "as.vector" [callN "as.matrix"
          [index (var "edges") (binop "," missing (callN "c" [lit "1", lit "2"]))]]]),
        narg "label" (callN "unique" [callN "as.vector" [callN "as.matrix"
          [index (var "edges") (binop "," missing (callN "c" [lit "1", lit "2"]))]]]) ]),
    assign (field (var "nodes") "group") (callN "ifelse"
      [ binop "%in%" (field (var "nodes") "id") (field (var "edges") "from"),
        lit "TF", lit "gene" ]) ]

/-- Cell 21: the first `visNetwork` plot. -/
def pandaC21 : Cell :=
  [ assign (var "net") (callN "visNetwork" [var "nodes", var "edges", narg "width" (lit "100%")]),
    assign (var "net") (callN "visGroups"
      [ var "net", narg "groupname" (lit "TF"), narg "shape" (lit "triangle"),
        narg "color" (callN "list" [narg "background" (lit "purple"), narg "border" (lit "black")]) ]),
    assign (var "net") (callN "visGroups"
      [ var "net", narg "groupname" (lit "gene"), narg "shape" (lit "dot"),
        narg "color" (callN "list" [narg "background" (lit "teal"), narg "border" (lit "black")]) ]),
    exprS (callN "visLegend"
      [var "net", narg "main" (lit "Legend"), narg "position" (lit "right"), narg "ncol" (lit "1")]) ]

/-- Cell 22: `nDiffs= 200`; `diffNet = pandaLCL@regNet - pandaWB@regNet`. -/
def pandaC22 : Cell :=
  [ assign (var "nDiffs") (lit "200"),
    assign (var "diffNet")
      (binop "-" (field (var "pandaLCL") "regNet") (field (var "pandaWB") "regNet")) ]

/-- Cell 23: construction of the `edges` dataframe for the top-200
differential edges (the second index-arithmetic cell). -/
def pandaC23 : Cell :=
  [ assign (var "edges") (callN "matrix" [lit "0L", var "nDiffs", lit "3"]),
    assign (callN "colnames" [var "edges"]) (callN "c" [lit "from", lit "to", lit "value"]),
    assign (var "edges") (callN "as.data.frame" [var "edges"]),
    assign (var "aa") (callN "order"
      [callN "as.matrix" [callN "abs" [var "diffNet"]], narg "decreasing" (lit "TRUE")]),
    assign (var "bb") (callN "sort"
      [callN "as.matrix" [callN "abs" [var "diffNet"]], narg "decreasing" (lit "TRUE")]),
    assign (field (var "edges") "value")
      (index (callN "as.matrix" [var "diffNet"])
             (index (var "aa") (binop ":" (lit "1") (var "nDiffs")))),
    assign (var "geneIdsTop")
      (binop "+" (binop "%/%" (index (var "aa") (binop ":" (lit "1") (var "nDiffs")))
                             (index (callN "dim" [var "diffNet"]) (lit "1")))
                 (lit "1")),
    assign (var "tfIdsTop")
      (binop "%%" (index (var "aa") (binop ":" (lit "1") (var "nDiffs")))
                  (index (callN "dim" [var "diffNet"]) (lit "1"))),
    assign (index (var "tfIdsTop") (binop "==" (var "tfIdsTop") (lit "0"))) (var "nTFs"),
    assign (field (var "edges") "to") (index (callN "colnames" [var "diffNet"]) (var "geneIdsTop")),
    assign (field (var "edges") "from") (index (callN "rownames" [var "diffNet"]) (var "tfIdsTop")),
    assign (field (var "edges") "arrows") (lit "to"),
    assign (field (var "edges") "color") (callN "ifelse"
      [binop ">" (field (var "edges") "value") (lit "0"), lit "green", lit "red"]),
    assign (field (var "edges") "value") (callN "abs" [field (var "edges") "value"]) ]

/-- Cell 24: the `nodes` dataframe for the differential-network plot. -/
def pandaC24 : Cell :=
  [ assign (var "nodes") (callN "data.frame"
      [ narg "id" (callN "unique" [callN "as.vector" [callN "as.matrix"
          [index (var "edges") (binop "," missing (callN "c" [lit "1", lit "2"]))]]]),
        narg "label" (callN "unique" [callN "as.vector" [callN "as.matrix"
          [index (var "edges") (binop "," missing (callN "c" [lit "1", lit "2"]))]]]) ]),
    assign (field (var "nodes") "group") (callN "ifelse"
      [ binop "%in%" (field (var "nodes") "id") (field (var "edges") "from"),
        lit "TF", lit "gene" ]) ]

/-- Cell 25: the second `visNetwork` plot. -/
def pandaC25 : Cell :=
  [ assign (var "net") (callN "visNetwork" [var "nodes", var "edges", narg "width" (lit "100%")]),
    assign (var "net") (callN "visGroups"
      [ var "net", narg "groupname" (lit "TF"), narg "shape" (lit "triangle"),
        narg "color" (callN "list" [narg "background" (lit "purple"), narg "border" (lit "black")]) ]),
    assign (var "net") (callN "visGroups"
      [ var "net", narg "groupname" (lit "gene"), narg "shape" (lit "dot"),
        narg "color" (callN "list" [narg "background" (lit "teal"), narg "border" (lit "black")]) ]),
    exprS (callN "visLegend"
      [var "net", narg "main" (lit "Legend"), narg "position" (lit "right"), narg "ncol" (lit "1")]) ]

/-- Cell 26: `lcl_outdegree <- calcDegree(pandaLCL, type="tf")`;
`wb_outdegree <- calcDegree(pandaWB, type="tf")`. -/
def pandaC26 : Cell :=
  [ assign (var "lcl_outdegree") (callN "calcDegree" [var "pandaLCL", narg "type" (lit "tf")]),
    assign (var "wb_outdegree") (callN "calcDegree" [var "pandaWB", narg "type" (lit "tf")]) ]

/-- Cell 27: `lcl_indegree <- calcDegree(pandaLCL, type="gene")`;
`wb_indegree <- calcDegree(pandaWB, type="gene")`. -/
def pandaC27 : Cell :=
  [ assign (var "lcl_indegree") (callN "calcDegree" [var "pandaLCL", narg "type" (lit "gene")]),
    assign (var "wb_indegree") (callN "calcDegree" [var "pandaWB", narg "type" (lit "gene")]) ]

/-- Cell 28: `degreeDiff <- calcDegreeDifference(pandaLCL, pandaWB,
type="gene")`; `head(degreeDiff)`. -/
def pandaC28 : Cell :=
  [ assign (var "degreeDiff") (callN "calcDegreeDifference"
      [var "pandaLCL", var "pandaWB", narg "type" (lit "gene")]),
    exprS (callN "head" [var "degreeDiff"]) ]

/-- Cell 29: `pathways <- gmtPathways(paste0(ppath,
"c2.cp.kegg.v7.0.symbols.gmt"))`. -/
def pandaC29 : Cell :=
  [ assign (var "pathways") (callN "gmtPathways"
      [callN "paste0" [var "ppath", lit "c2.cp.kegg.v7.0.symbols.gmt"]]) ]

/-- Cell 30: `degreeDiff_all <- read.delim(paste0(ppath,
"lclWB_indegreeDifference.rnk"), stringsAsFactors = F, header=F)`;
`degreeDiff_all <- setNames(degreeDiff_all[,2], degreeDiff_all[,1])`. -/
def pandaC30 : Cell :=
  [ assign (var "degreeDiff_all") (callN "read.delim"
      [ callN "paste0" [var "ppath", lit "lclWB_indegreeDifference.rnk"],
        narg "stringsAsFactors" (lit "F"), narg "header" (lit "F") ]),
    assign (var "degreeDiff_all") (callN "setNames"
      [ index (var "degreeDiff_all") (binop "," missing (lit "2")),
        index (var "degreeDiff_all") (binop "," missing (lit "1")) ]) ]

/-- Cell 31: `fgseaRes <- fgsea(pathways, degreeDiff_all, minSize=15,
maxSize=500, nperm=1000)`; `head(fgseaRes)`. -/
def pandaC31 : Cell :=
  [ assign (var "fgseaRes") (callN "fgsea"
      [ var "pathways", var "degreeDiff_all", narg "minSize" (lit "15"),
        narg "maxSize" (lit "500"), narg "nperm" (lit "1000") ]),
    exprS (callN "head" [var "fgseaRes"]) ]

/-- Cell 32: `sig <- fgseaRes[fgseaRes$padj < 0.05,]`. -/
def pandaC32 : Cell :=
  [ assign (var "sig") (index (var "fgseaRes")
      (binop "," (binop "<" (field (var "fgseaRes") "padj") (lit "0.05")) missing)) ]

/-- Cell 33: `sig[order(sig$NES)[1:10],]`. -/
def pandaC33 : Cell :=
  [ exprS (index (var "sig")
      (binop "," (index (callN "order" [field (var "sig") "NES"])
                        (binop ":" (lit "1") (lit "10")))
                 missing)) ]

/-- Cell 34: `dat <- data.frame(fgseaRes)` and the bubble-plot
settings. -/
def pandaC34 : Cell :=
  [ assign (var "dat") (callN "data.frame" [var "fgseaRes"]),
    assign (var "fdrcut") (lit "0.05"),
    assign (var "dencol_neg") (lit "blue"),
    assign (var "dencol_pos") (lit "red"),
    assign (var "signnamelength") (lit "4"),
    assign (var "asp") (lit "3"),
    assign (var "charcut") (lit "100") ]

/-- Cell 35: the signature-name truncation cell, with its two `for`
loops over `1:length(a)`. -/
def pandaC35 : Cell :=
  [ assign (var "a") (callN "as.character" [field (var "dat") "pathway"]),
    forS "j" (binop ":" (lit "1") (callN "length" [var "a"]))
      (assign (index (var "a") (var "j"))
        (callN "substr"
          [ index (var "a") (var "j"),
            binop "+" (var "signnamelength") (lit "2"),
            callN "nchar" [index (var "a") (var "j")] ])),
    assign (var "a") (callN "tolower" [var "a"]),
    forS "j" (binop ":" (lit "1") (callN "length" [var "a"]))
      (ifS (binop ">" (callN "nchar" [index (var "a") (var "j")]) (var "charcut"))
        (assign (index (var "a") (var "j"))
          (callN "paste"
            [ callN "substr" [index (var "a") (var "j"), lit "1", var "charcut"],
              lit "...", narg "sep" (lit " ") ]))
        skip),
    assign (var "a") (callN "gsub" [lit "_", lit " ", var "a"]),
    assign (field (var "dat") "NAME") (var "a") ]

/-- Cell 36: selection and ordering of the significant signatures. -/
def pandaC36 : Cell :=
  [ assign (var "dat2") (index (var "dat")
      (binop "," (binop "<" (index (var "dat") (binop "," missing (lit "padj"))) (var "fdrcut"))
                 missing)),
    assign (var "dat2") (index (var "dat2")
      (binop "," (callN "order" [index (var "dat2") (binop "," missing (lit "padj"))]) missing)),
    assign (field (var "dat2") "signature") (callN "factor"
      [ field (var "dat2") "NAME",
        callN "rev" [callN "as.character" [field (var "dat2") "NAME"]] ]) ]

/-- Cell 37: `sign_neg <- which(dat2[,"NES"]<0)`;
`sign_pos <- which(dat2[,"NES"]>0)`. -/
def pandaC37 : Cell :=
  [ assign (var "sign_neg") (callN "which"
      [binop "<" (index (var "dat2") (binop "," missing (lit "NES"))) (lit "0")]),
    assign (var "sign_pos") (callN "which"
      [binop ">" (index (var "dat2") (binop "," missing (lit "NES"))) (lit "0")]) ]

/-- Cell 38: the `signcol` color vector. -/
def pandaC38 : Cell :=
  [ assign (var "signcol") (callN "rep"
      [lit "NA", callN "length" [field (var "dat2") "signature"]]),
    assign (index (var "signcol") (var "sign_neg")) (var "dencol_neg"),
    assign (index (var "signcol") (var "sign_pos")) (var "dencol_pos"),
    assign (var "signcol") (callN "rev" [var "signcol"]) ]

/-- Cell 39: the ggplot bubble plot. -/
def pandaC39 : Cell :=
  [ assign (var "g") (callN "ggplot"
      [ var "dat2",
        callN "aes" [narg "x" (var "padj"), narg "y" (var "signature"), narg "size" (var "size")] ]),
    exprS (binop "+"
      (binop "+"
        (binop "+"
          (binop "+"
            (binop "+"
              (binop "+"
                (binop "+" (var "g")
                  (callN "geom_point"
                    [ callN "aes" [narg "fill" (var "NES")],
                      narg "shape" (lit "21"), narg "colour" (lit "white") ]))
                (callN "theme_bw" []))
              (callN "xlim" [lit "0", var "fdrcut"]))
            (callN "scale_size_area" [narg "max_size" (lit "10"), narg "guide" (lit "none")]))
          (callN "scale_fill_gradient2"
            [narg "low" (var "dencol_neg"), narg "high" (var "dencol_pos")]))
        (callN "theme" [narg "axis.text.y"
          (callN "element_text" [narg "colour" (var "signcol")])]))
      (callN "theme" [narg "aspect.ratio" (var "asp"),
        narg "axis.title.y" (callN "element_blank" [])])) ]

/-- All code cells of the PANDA notebook, in order. -/
def pandaCodeCells : List Cell :=
  [pandaC1, pandaC2, pandaC3, pandaC4, pandaC5, pandaC6, pandaC7, pandaC8,
   pandaC9, pandaC10, pandaC11, pandaC12, pandaC13, pandaC14, pandaC15,
   pandaC16, pandaC17, pandaC18, pandaC19, pandaC20, pandaC21, pandaC22,
   pandaC23, pandaC24, pandaC25, pandaC26, pandaC27, pandaC28, pandaC29,
   pandaC30, pandaC31, pandaC32, pandaC33, pandaC34, pandaC35, pandaC36,
   pandaC37, pandaC38, pandaC39]

/-- All statements of the PANDA notebook, in order. -/
def pandaStmts : List RStmt := pandaCodeCells.flatten

/-! ### Call-site extraction -/

/-- Calls occurring in an expression, as pairs of head-function name
and argument list.  `callsW e pending` traverses an application spine
whose outer arguments are `pending`. -/
def RExpr.callsW : RExpr → List RExpr → List (String × List RExpr)
  | .var _, _ => []
  | .lit _, _ => []
  | .fnref s, pending => [(s, pending)]
  | .app f a, pending => f.callsW (a :: pending) ++ a.callsW []
  | .binop _ l r, _ => l.callsW [] ++ r.callsW []
  | .unop _ e, _ => e.callsW []
  | .narg _ e, _ => e.callsW []
  | .index b i, _ => b.callsW [] ++ i.callsW []
  | .field b _, _ => b.callsW []
  | .lam _ body, _ => body.callsW []
  | .missing, _ => []

/-- Calls occurring in an expression. -/
def RExpr.calls (e : RExpr) : List (String × List RExpr) := e.callsW []

/-- Calls occurring in a statement. -/
def RStmt.calls : RStmt → List (String × List RExpr)
  | .assign l r => l.calls ++ r.calls
  | .exprS e => e.calls
  | .ifS c t e => c.calls ++ t.calls ++ e.calls
  | .forS _ r b => r.calls ++ b.calls
  | .seqS a b => a.calls ++ b.calls
  | .skip => []
  | .tryS b h => b.calls ++ h.calls

/-- Calls occurring in a list of statements. -/
def stmtsCalls (l : List RStmt) : List (String × List RExpr) :=
  (l.map RStmt.calls).flatten

/-- All function names referenced in a list of statements. -/
def stmtsFns (l : List RStmt) : List String := (l.map RStmt.fns).flatten

/-- All binary operators occurring in a list of statements. -/
def stmtsOps (l : List RStmt) : List String := (l.map RStmt.ops).flatten

/-! ### Flat-file input extraction (claim C8) -/

/-- File-reading routines of the R and Python libraries used (and the
usual ones that are not used, so that their absence is checked too). -/
def fileReaderFns : List String :=
  ["read.delim", "read.csv", "read.csv2", "read.table", "readLines", "readRDS",
   "scan", "load", "gmtPathways", "file", "url", "open",
   "np.loadtxt", "np.load", "np.genfromtxt", "pd.read_csv", "pd.read_table"]

/-- The file-name literal of a `paste0(ppath, "name")` expression. -/
def pasteLit : RExpr → Option String
  | .app (.app (.fnref "paste0") (.var "ppath")) (.lit s) => some s
  | _ => none

/-- The file name consumed by a call, when the call is a file read
whose first argument is `paste0(ppath, <literal>)`. -/
def fileOfCall : String × List RExpr → Option String
  | (fn, args) =>
    if fn ∈ fileReaderFns then args.head?.bind pasteLit else none

/-- All file-reading calls in a list of statements. -/
def readerCalls (l : List RStmt) : List (String × List RExpr) :=
  (stmtsCalls l).filter (fun c => decide (c.1 ∈ fileReaderFns))

/-- All file names read by a list of statements. -/
def filesRead (l : List RStmt) : List String :=
  (stmtsCalls l).filterMap fileOfCall

/-! ### Single-library-call form (claims C1, C6) -/

/-- A simple call argument: a variable, a literal, a named argument
wrapping a simple argument, or a simple call (such as the list display
`[0.1,0.1]`). -/
def isSimpleArg : RExpr → Bool
  | .var _ => true
  | .lit _ => true
  | .fnref _ => true
  | .narg _ e => isSimpleArg e
  | .app f a => isSimpleArg f && isSimpleArg a
  | _ => false

/-- A single parameterized call: an application spine headed by a named
function, all arguments simple. -/
def isSimpleCall : RExpr → Bool
  | .fnref _ => true
  | .app f a => isSimpleCall f && isSimpleArg a
  | _ => false

/-- A variable or a tuple of variables (a Python multi-assignment
target). -/
def isVarTuple : RExpr → Bool
  | .var _ => true
  | .binop "," l r => isVarTuple l && isVarTuple r
  | _ => false

/-- A computational step that is a single call to a library routine:
an assignment of a single parameterized call to a variable (tuple), or
a bare such call. -/
def isLibCallStep : RStmt → Bool
  | .assign lhs rhs => isVarTuple lhs && isSimpleCall rhs
  | .exprS e => isSimpleCall e || (match e with | .var _ => true | .field (.var _) _ => true | _ => false)
  | _ => false

/-- The library analysis routines invoked by the notebooks, as named by
the spec: penalty estimation, partial correlation, p-value adjustment,
network construction, degree computation, enrichment testing. -/
def analysisFns : List String :=
  ["estimate_penalty_parameters_dragon", "get_partial_correlation_dragon",
   "estimate_p_values_dragon", "panda", "calcDegree", "calcDegreeDifference", "fgsea"]

/-- The analytical steps of the spec including data simulation. -/
def analyticalStepFns : List String := "simulate_dragon_data" :: analysisFns

/-- Does a statement reference one of the analytical-step routines? -/
def mentionsAnalysis (s : RStmt) : Bool :=
  s.fns.any (fun f => decide (f ∈ analyticalStepFns))

/-- Distinct analysis routines called by the DRAGON notebook. -/
def dragonAnalysisCalled : List String :=
  ((stmtsFns dragonStmts).filter (fun f => decide (f ∈ analysisFns))).dedup

/-- Distinct analysis routines called by the PANDA notebook. -/
def pandaAnalysisCalled : List String :=
  ((stmtsFns pandaStmts).filter (fun f => decide (f ∈ analysisFns))).dedup

/-! ### Error handling and concurrency scans (claims C7, C10) -/

/-- Error-handling routines of R and Python. -/
def errorHandlingFns : List String :=
  ["tryCatch", "try", "withCallingHandlers", "signalCondition", "on.exit",
   "conditionCall", "stop", "warning", "simpleError", "retry"]

/-- Thread-, process- and asynchronous-task-creating routines of R and
Python. -/
def concurrencyFns : List String :=
  ["mclapply", "mcparallel", "parLapply", "parSapply", "makeCluster",
   "clusterApply", "clusterMap", "future", "plan", "foreach",
   "threading.Thread", "multiprocessing.Process", "multiprocessing.Pool",
   "concurrent.futures.ThreadPoolExecutor", "asyncio.run", "os.fork",
   "subprocess.Popen", "subprocess.run"]

/-- Modules and packages loaded by a list of statements: arguments of
`library(...)` and of the encoded Python module loads. -/
def moduleLoads (l : List RStmt) : List String :=
  (stmtsCalls l).filterMap (fun c =>
    if c.1 ∈ ["library", "py_from_star", "py_import_as", "py_from"] then
      match c.2.head? with
      | some (.lit s) => some s
      | _ => none
    else none)

/-- Head function name of an application spine. -/
def spineHead : RExpr → Option String
  | .fnref s => some s
  | .app f _ => spineHead f
  | _ => none

/-- Right-hand sides of all assignments to the variable `v` in a
statement. -/
def RStmt.assignsTo (v : String) : RStmt → List RExpr
  | .assign (.var w) r => if w = v then [r] else []
  | .assign _ _ => []
  | .exprS _ => []
  | .ifS _ t e => t.assignsTo v ++ e.assignsTo v
  | .forS _ _ b => b.assignsTo v
  | .seqS a b => a.assignsTo v ++ b.assignsTo v
  | .skip => []
  | .tryS b h => b.assignsTo v ++ h.assignsTo v

/-- Right-hand sides of all assignments to `v` in a list of
statements, in program order. -/
def rhsAssignedTo (v : String) (l : List RStmt) : List RExpr :=
  (l.map (RStmt.assignsTo v)).flatten

/-- The value of the named argument `name` in an argument list. -/
def nargValue (name : String) (args : List RExpr) : Option RExpr :=
  args.findSome? (fun a => match a with
    | .narg m e => if m = name then some e else none
    | _ => none)

/-! ### DRAGON parameter dataflow (claim C4)

The DRAGON notebook is straight-line code; the constants below are the
values its cells assign and pass, read off the source. -/

/-- Cell `dragonC2`: `n = 1000`. -/
def dragon_n : ℕ := 1000

/-- Cell `dragonC2`: `p1 = 500`. -/
def dragon_p1 : ℕ := 500

/-- Cell `dragonC2`: `p2 = 100`. -/
def dragon_p2 : ℕ := 100

/-- Cell `dragonC3`: the `p1=100` argument of `simulate_dragon_data`. -/
def sim_p1 : ℕ := 100

/-- Cell `dragonC3`: the `p2=500` argument of `simulate_dragon_data`. -/
def sim_p2 : ℕ := 500

/-- Modelled from the spec: `simulate_dragon_data` lives in netZooPy,
outside this repository; per the description in the notebook it returns
`X1` with `n` rows and `p1` variables in the columns, so `X1` has as
many columns as the `p1` argument of the call in `dragonC3`. -/
def X1cols : ℕ := sim_p1

/-- Modelled from the spec: `X2` has as many columns as the `p2`
argument of the call in `dragonC3`. -/
def X2cols : ℕ := sim_p2

/-- Cell `dragonC8`: the third argument of
`estimate_p_values_dragon(r, n, p1, p2, lambdas)` is the variable `p1`,
whose value is still the cell-`dragonC2` assignment. -/
def estP_p1 : ℕ := dragon_p1

/-- Cell `dragonC8`: the fourth argument is the variable `p2`. -/
def estP_p2 : ℕ := dragon_p2

/-! ### PANDA top-edges index arithmetic (claim C5)

Cells `pandaC19` / `pandaC23` decompose a 1-based column-major linear
index `L` of the `nTFs`-by-`nGenes` weight matrix.  R `%/%` and `%%`
on positive integers agree with Nat division and remainder. -/

/-- Source line `geneIdsTop = (aa[1:nDiffs] %/% dim(diffNet)[1]) + 1`,
for one linear index `L`. -/
def geneIdTop (nTFs L : ℕ) : ℕ := L / nTFs + 1

/-- Source line `tfIdsTop = aa[1:nDiffs] %% dim(diffNet)[1]`, before
the zero fix-up. -/
def tfIdTopRaw (nTFs L : ℕ) : ℕ := L % nTFs

/-- Value of `tfIdsTop` after `tfIdsTop[tfIdsTop == 0] = nTFs`. -/
def tfIdTop (nTFs L : ℕ) : ℕ :=
  if tfIdTopRaw nTFs L = 0 then nTFs else tfIdTopRaw nTFs L

/-- R 1-based vector indexing, as in `colnames(diffNet)[geneIdsTop]`:
an out-of-range subscript yields a missing value. -/
def colnameAt (names : List String) (i : ℕ) : Option String :=
  if 1 ≤ i then names.get? (i - 1) else none

/-! ### PANDA expression preprocessing (claims C6, C9) -/

/-- An expression-table row; `none` is an NA entry. -/
abbrev Row := List (Option ℤ)

/-- Cell `pandaC9`: the count of entries of a row that are neither NA
nor zero, `length(x[(!is.na(x) & x!=0)])`. -/
def validCount (r : Row) : ℕ :=
  (r.filter (fun x => match x with
    | none => false
    | some v => decide (v ≠ 0))).length

/-- Cell `pandaC9`: `zero_na_counts <- apply(exp, MARGIN = 1, ...)`. -/
def zeroNaCounts (rows : List Row) : List ℕ := rows.map validCount

/-- R row subsetting by a logical vector, `exp[mask,]`. -/
def maskRows (rows : List Row) (mask : List Bool) : List Row :=
  ((rows.zip mask).filter Prod.snd).map Prod.fst

/-- The vectorized comparison `zero_na_counts > 20`. -/
def gtMask (counts : List ℕ) (t : ℕ) : List Bool :=
  counts.map (fun c => decide (t < c))

/-- Cell `pandaC10`: `exp <- exp[zero_na_counts > 20,]`. -/
def filteredExp (rows : List Row) : List Row :=
  maskRows rows (gtMask (zeroNaCounts rows) 20)

/-- An expression table: sample-name header and data rows. -/
structure ExpTable where
  header : List String
  rows : List Row
  deriving DecidableEq, Repr

/-- The elementwise transform of cell `pandaC8`, `log2(exp+1)`, on one
row; the numeric `log2` is a library routine, abstracted as `f`; an NA
entry stays NA. -/
def logRow (f : ℤ → ℤ) (r : Row) : Row :=
  r.map (Option.map (fun v => f (v + 1)))

/-- Cell `pandaC8` on the whole table. -/
def logTransform (f : ℤ → ℤ) (t : ExpTable) : ExpTable :=
  { t with rows := t.rows.map (logRow f) }

/-- Cells `pandaC9`-`pandaC10` on the table. -/
def filterLowRows (t : ExpTable) : ExpTable :=
  { t with rows := filteredExp t.rows }

/-- Cell `pandaC12` on one row: keep the entries of the columns whose
names are among the sample ids. -/
def selectRow (header : List String) (samples : List String) (r : Row) : Row :=
  ((header.zip r).filter (fun p => decide (p.1 ∈ samples))).map Prod.snd

/-- Cell `pandaC12`: `lcl_exp <- exp[,colnames(exp) %in% lcl_samples[,1]]`. -/
def selectCols (t : ExpTable) (samples : List String) : ExpTable :=
  { header := t.header.filter (fun h => decide (h ∈ samples)),
    rows := t.rows.map (selectRow t.header samples) }

/-- The expression table handed to `panda` for the LCL run: the table
read in cell `pandaC7`, after the log transform (`pandaC8`), the
valid-entry row filter (`pandaC9`-`pandaC10`) and the sample-column
selection (`pandaC12`). -/
def pandaInputLCL (f : ℤ → ℤ) (t : ExpTable) (samples : List String) : ExpTable :=
  selectCols (filterLowRows (logTransform f t)) samples

/-! ### Sequential semantics with error propagation (claim C7)

A library call either returns normally or raises an error condition
(numbered by the oracle).  `br` decides each branch condition and
`iter` the iteration count of each loop, so the semantics covers the
conditionals and loops actually present.  The `tryS` construct - which
the notebooks never use - is the only one that can swallow an error. -/

/-- Evaluate an expression: every referenced function may raise. -/
def evalE (oracle : String → Option ℕ) : RExpr → Except ℕ Unit
  | .var _ => .ok ()
  | .lit _ => .ok ()
  | .fnref s =>
    match oracle s with
    | some e => .error e
    | none => .ok ()
  | .app f a => do evalE oracle f; evalE oracle a
  | .binop _ l r => do evalE oracle l; evalE oracle r
  | .unop _ e => evalE oracle e
  | .narg _ e => evalE oracle e
  | .index b i => do evalE oracle b; evalE oracle i
  | .field b _ => evalE oracle b
  | .lam _ _ => .ok ()
  | .missing => .ok ()

/-- Run an `Except` computation `n` times in sequence. -/
def repeatE : ℕ → Except ℕ Unit → Except ℕ Unit
  | 0, _ => .ok ()
  | n + 1, r => do r; repeatE n r

/-- Run one statement. -/
def runStmt (oracle : String → Option ℕ) (br : RExpr → Bool) (iter : RExpr → ℕ) :
    RStmt → Except ℕ Unit
  | .assign l r => do evalE oracle l; evalE oracle r
  | .exprS e => evalE oracle e
  | .ifS c t e => do
      evalE oracle c
      if br c then runStmt oracle br iter t else runStmt oracle br iter e
  | .forS _ r b => do evalE oracle r; repeatE (iter r) (runStmt oracle br iter b)
  | .seqS a b => do runStmt oracle br iter a; runStmt oracle br iter b
  | .skip => .ok ()
  | .tryS b h =>
    match runStmt oracle br iter b with
    | .error _ => runStmt oracle br iter h
    | .ok _ => .ok ()

/-- Run a list of statements in order, stopping at the first error. -/
def runStmts (oracle : String → Option ℕ) (br : RExpr → Bool) (iter : RExpr → ℕ) :
    List RStmt → Except ℕ Unit
  | [] => .ok ()
  | s :: rest => do runStmt oracle br iter s; runStmts oracle br iter rest

/-- The oracle used to witness error propagation: the data-simulation
call raises error condition 3. -/
def c7Oracle : String → Option ℕ :=
  fun f => if f = "simulate_dragon_data" then some 3 else none

/-! ## Theorems -/

/-- Error analysis of sequencing in the `Except` monad. -/
theorem bindE_error {a : Except ℕ Unit} {g : Unit → Except ℕ Unit} {err : ℕ}
    (h : (a >>= g) = .error err) :
    a = .error err ∨ (a = .ok () ∧ g () = .error err) := by
  cases a with
  | error e =>
    left
    simpa [Bind.bind, Except.bind] using h
  | ok u =>
    right
    cases u
    exact ⟨rfl, by simpa [Bind.bind, Except.bind] using h⟩

/-- An expression evaluation can only raise an error some referenced
function raised. -/
theorem evalE_error (oracle : String → Option ℕ) :
    ∀ e : RExpr, ∀ err : ℕ, evalE oracle e = .error err →
      ∃ f ∈ e.fns, oracle f = some err := by
  intro e
  induction e with
  | var s => intro err h; simp [evalE] at h
  | lit s => intro err h; simp [evalE] at h
  | fnref s =>
    intro err h
    cases ho : oracle s with
    | none => rw [evalE, ho] at h; cases h
    | some e =>
      rw [evalE, ho] at h
      cases h
      exact ⟨s, by simp [RExpr.fns], ho⟩
  | app f a ihf iha =>
    intro err h
    rw [show evalE oracle (.app f a) = evalE oracle f >>= (fun _ => evalE oracle a) from rfl] at h
    rcases bindE_error h with h1 | ⟨_, h2⟩
    · obtain ⟨g, hg, hog⟩ := ihf err h1
      exact ⟨g, by simp [RExpr.fns]; exact Or.inl hg, hog⟩
    · obtain ⟨g, hg, hog⟩ := iha err h2
      exact ⟨g, by simp [RExpr.fns]; exact Or.inr hg, hog⟩
  | binop o l r ihl ihr =>
    intro err h
    rw [show evalE oracle (.binop o l r) = evalE oracle l >>= (fun _ => evalE oracle r) from rfl] at h
    rcases bindE_error h with h1 | ⟨_, h2⟩
    · obtain ⟨g, hg, hog⟩ := ihl err h1
      exact ⟨g, by simp [RExpr.fns]; exact Or.inl hg, hog⟩
    · obtain ⟨g, hg, hog⟩ := ihr err h2
      exact ⟨g, by simp [RExpr.fns]; exact Or.inr hg, hog⟩
  | unop o e ih =>
    intro err h
    obtain ⟨g, hg, hog⟩ := ih err h
    exact ⟨g, by simpa [RExpr.fns] using hg, hog⟩
  | narg n e ih =>
    intro err h
    obtain ⟨g, hg, hog⟩ := ih err h
    exact ⟨g, by simpa [RExpr.fns] using hg, hog⟩
  | index b i ihb ihi =>
    intro err h
    rw [show evalE oracle (.index b i) = evalE oracle b >>= (fun _ => evalE oracle i) from rfl] at h
    rcases bindE_error h with h1 | ⟨_, h2⟩
    · obtain ⟨g, hg, hog⟩ := ihb err h1
      exact ⟨g, by simp [RExpr.fns]; exact Or.inl hg, hog⟩
    · obtain ⟨g, hg, hog⟩ := ihi err h2
      exact ⟨g, by simp [RExpr.fns]; exact Or.inr hg, hog⟩
  | field b n ih =>
    intro err h
    obtain ⟨g, hg, hog⟩ := ih err h
    exact ⟨g, by simpa [RExpr.fns] using hg, hog⟩
  | lam p body ih =>
    intro err h
    simp [evalE] at h
  | missing => intro err h; simp [evalE] at h

/-- Repetition of a computation can only raise that same
error. -/
theorem repeatE_error :
    ∀ {n : ℕ} {r : Except ℕ Unit} {err : ℕ},
      repeatE n r = .error err → r = .error err := by
  intro n
  induction n with
  | zero => intro r err h; simp [repeatE] at h
  | succ n ih =>
    intro r err h
    rw [show repeatE (n + 1) r = r >>= (fun _ => repeatE n r) from rfl] at h
    rcases bindE_error h with h1 | ⟨_, h2⟩
    · exact h1
    · exact ih h2

/-- A statement without try-catch can only raise an error some
referenced function raised. -/
theorem runStmt_error (oracle : String → Option ℕ) (br : RExpr → Bool) (iter : RExpr → ℕ) :
    ∀ s : RStmt, s.hasTry = false → ∀ err : ℕ,
      runStmt oracle br iter s = .error err →
      ∃ f ∈ s.fns, oracle f = some err := by
  intro s
  induction s with
  | assign l r =>
    intro _ err h
    rw [show runStmt oracle br iter (.assign l r)
          = evalE oracle l >>= (fun _ => evalE oracle r) from rfl] at h
    rcases bindE_error h with h1 | ⟨_, h2⟩
    · obtain ⟨g, hg, hog⟩ := evalE_error oracle l err h1
      exact ⟨g, by simp [RStmt.fns]; exact Or.inl hg, hog⟩
    · obtain ⟨g, hg, hog⟩ := evalE_error oracle r err h2
      exact ⟨g, by simp [RStmt.fns]; exact Or.inr hg, hog⟩
  | exprS e =>
    intro _ err h
    obtain ⟨g, hg, hog⟩ := evalE_error oracle e err h
    exact ⟨g, by simpa [RStmt.fns] using hg, hog⟩
  | ifS c t e iht ihe =>
    intro hT err h
    simp only [RStmt.hasTry, Bool.or_eq_false_iff] at hT
    rw [show runStmt oracle br iter (.ifS c t e) = evalE oracle c >>=
          (fun _ => if br c then runStmt oracle br iter t else runStmt oracle br iter e)
        from rfl] at h
    rcases bindE_error h with h1 | ⟨_, h2⟩
    · obtain ⟨g, hg, hog⟩ := evalE_error oracle c err h1
      exact ⟨g, by simp [RStmt.fns]; exact Or.inl hg, hog⟩
    · by_cases hbr : br c = true
      · rw [if_pos hbr] at h2
        obtain ⟨g, hg, hog⟩ := iht hT.1 err h2
        exact ⟨g, by simp [RStmt.fns]; exact Or.inr (Or.inl hg), hog⟩
      · rw [if_neg hbr] at h2
        obtain ⟨g, hg, hog⟩ := ihe hT.2 err h2
        exact ⟨g, by simp [RStmt.fns]; exact Or.inr (Or.inr hg), hog⟩
  | forS v r b ih =>
    intro hT err h
    simp only [RStmt.hasTry] at hT
    rw [show runStmt oracle br iter (.forS v r b) = evalE oracle r >>=
          (fun _ => repeatE (iter r) (runStmt oracle br iter b)) from rfl] at h
    rcases bindE_error h with h1 | ⟨_, h2⟩
    · obtain ⟨g, hg, hog⟩ := evalE_error oracle r err h1
      exact ⟨g, by simp [RStmt.fns]; exact Or.inl hg, hog⟩
    · obtain ⟨g, hg, hog⟩ := ih hT err (repeatE_error h2)
      exact ⟨g, by simp [RStmt.fns]; exact Or.inr hg, hog⟩
  | seqS a b iha ihb =>
    intro hT err h
    simp only [RStmt.hasTry, Bool.or_eq_false_iff] at hT
    rw [show runStmt oracle br iter (.seqS a b)
          = runStmt oracle br iter a >>= (fun _ => runStmt oracle br iter b) from rfl] at h
    rcases bindE_error h with h1 | ⟨_, h2⟩
    · obtain ⟨g, hg, hog⟩ := iha hT.1 err h1
      exact ⟨g, by simp [RStmt.fns]; exact Or.inl hg, hog⟩
    · obtain ⟨g, hg, hog⟩ := ihb hT.2 err h2
      exact ⟨g, by simp [RStmt.fns]; exact Or.inr hg, hog⟩
  | skip => intro _ err h; simp [runStmt] at h
  | tryS b hnd ihb ihh => intro hT; simp [RStmt.hasTry] at hT

/-- A statement list without try-catch can only raise an error some
referenced function raised. -/
theorem runStmts_error (oracle : String → Option ℕ) (br : RExpr → Bool) (iter : RExpr → ℕ) :
    ∀ l : List RStmt, (l.all fun s => !s.hasTry) = true → ∀ err : ℕ,
      runStmts oracle br iter l = .error err →
      ∃ f ∈ stmtsFns l, oracle f = some err := by
  intro l
  induction l with
  | nil => intro _ err h; simp [runStmts] at h
  | cons s rest ih =>
    intro hall err h
    simp only [List.all_cons, Bool.and_eq_true, Bool.not_eq_true'] at hall
    rw [show runStmts oracle br iter (s :: rest)
          = runStmt oracle br iter s >>= (fun _ => runStmts oracle br iter rest) from rfl] at h
    rcases bindE_error h with h1 | ⟨_, h2⟩
    · obtain ⟨g, hg, hog⟩ := runStmt_error oracle br iter s hall.1 err h1
      exact ⟨g, by simp [stmtsFns]; exact Or.inl hg, hog⟩
    · obtain ⟨g, hg, hog⟩ := ih hall.2 err h2
      refine ⟨g, ?_, hog⟩
      simp only [stmtsFns, List.map_cons, List.flatten_cons, List.mem_append]
      right
      simpa [stmtsFns] using hg

/-- Zipping a list with its image under a map pairs each element with
its own image. -/
theorem zip_self_map {α β : Type} (f : α → β) :
    ∀ l : List α, l.zip (l.map f) = l.map (fun a => (a, f a))
  | [] => rfl
  | a :: l => by simp [zip_self_map f l]

/-- Membership in the filtered expression matrix of cells
`pandaC9`-`pandaC10`: a row survives exactly when its valid-entry
count exceeds 20. -/
theorem mem_filteredExp (rows : List Row) (r : Row) :
    r ∈ filteredExp rows ↔ r ∈ rows ∧ 20 < validCount r := by
  unfold filteredExp maskRows gtMask zeroNaCounts
  rw [List.map_map, zip_self_map]
  simp only [List.mem_map, List.mem_filter, Function.comp]
  constructor
  · rintro ⟨⟨x, hb⟩, ⟨⟨a, ha, hpair⟩, hsnd⟩, hfst⟩
    cases hpair
    simp only at hfst hsnd
    subst hfst
    exact ⟨ha, of_decide_eq_true hsnd⟩
  · rintro ⟨hr, hv⟩
    exact ⟨(r, decide (20 < validCount r)), ⟨⟨r, hr, rfl⟩, decide_eq_true hv⟩, rfl⟩

/-- Membership in the expression table handed to `panda` for the LCL
run: exactly the log-transformed, valid-count-filtered,
column-selected rows of the table as read. -/
theorem mem_pandaInputLCL (f : ℤ → ℤ) (t : ExpTable) (samples : List String) (r : Row) :
    r ∈ (pandaInputLCL f t samples).rows ↔
      ∃ row ∈ t.rows, 20 < validCount (logRow f row) ∧
        r = selectRow t.header samples (logRow f row) := by
  unfold pandaInputLCL selectCols filterLowRows logTransform
  simp only [List.mem_map]
  constructor
  · rintro ⟨x, hx, rfl⟩
    rcases (mem_filteredExp _ x).1 hx with ⟨hx1, hx2⟩
    rcases List.mem_map.1 hx1 with ⟨row, hrow, rfl⟩
    exact ⟨row, hrow, hx2, rfl⟩
  · rintro ⟨row, hrow, hv, rfl⟩
    exact ⟨logRow f row,
      (mem_filteredExp _ _).2 ⟨List.mem_map_of_mem _ hrow, hv⟩, rfl⟩

/-- C4: in the DRAGON notebook the simulated data have 100 variables
in layer X1 and 500 in layer X2 (`simulate_dragon_data` is called with
`p1=100, p2=500`), while `estimate_p_values_dragon` receives the
earlier-assigned `p1=500` and `p2=100`; for this straight-line program
the `(p1, p2)` arguments of the p-value computation are therefore
swapped with respect to the actual column counts of X1 and X2. -/
theorem c4_p_value_args_swapped :
    X1cols = 100 ∧ X2cols = 500 ∧
    estP_p1 = X2cols ∧ estP_p2 = X1cols ∧
    estP_p1 ≠ X1cols ∧ estP_p2 ≠ X2cols ∧
    rhsAssignedTo "p1" dragonStmts = [lit "500"] ∧
    rhsAssignedTo "p2" dragonStmts = [lit "100"] ∧
    rhsAssignedTo "n" dragonStmts = [lit "1000"] ∧
    ((stmtsCalls dragonStmts).filter (fun c => c.1 == "simulate_dragon_data")).map
        (fun c => (nargValue "p1" c.2, nargValue "p2" c.2))
      = [(some (lit "100"), some (lit "500"))] ∧
    ((stmtsCalls dragonStmts).filter (fun c => c.1 == "estimate_p_values_dragon")).map
        Prod.snd
      = [[var "r", var "n", var "p1", var "p2", var "lambdas"]] := by
  decide

/-- C5: in the top-edges construction of cells `pandaC19` / `pandaC23`,
for every 1-based column-major linear index `L` of the
`nTFs`-by-`nGenes` matrix that is an exact multiple of `nTFs`, the
computed indices are `tfIdsTop = nTFs` and `geneIdsTop = L/nTFs + 1`,
so the inversion identity `(geneIdsTop - 1)*nTFs + tfIdsTop = L` fails
exactly for those `L` (yielding `L + nTFs`); in particular for
`L = nTFs*nGenes` the computed gene index `nGenes + 1` is out of the
column range and indexing the column names with it yields a missing
value. -/
theorem c5_index_inversion_failure (nTFs nGenes L : ℕ) (hT : 0 < nTFs)
    (hL1 : 1 ≤ L) (hL2 : L ≤ nTFs * nGenes) :
    (nTFs ∣ L →
      tfIdTop nTFs L = nTFs ∧ geneIdTop nTFs L = L / nTFs + 1 ∧
      (geneIdTop nTFs L - 1) * nTFs + tfIdTop nTFs L = L + nTFs) ∧
    ((geneIdTop nTFs L - 1) * nTFs + tfIdTop nTFs L = L ↔ ¬nTFs ∣ L) ∧
    (∀ names : List String, names.length = nGenes → L = nTFs * nGenes →
      geneIdTop nTFs L = nGenes + 1 ∧ colnameAt names (geneIdTop nTFs L) = none) := by
  have hgene : geneIdTop nTFs L - 1 = L / nTFs := by
    simp [geneIdTop]
  by_cases hd : nTFs ∣ L
  · obtain ⟨k, hk⟩ := hd
    have hmod : L % nTFs = 0 := by rw [hk]; exact Nat.mul_mod_right nTFs k
    have hdiv : L / nTFs = k := by rw [hk]; exact Nat.mul_div_cancel_left k hT
    have htf : tfIdTop nTFs L = nTFs := by simp [tfIdTop, tfIdTopRaw, hmod]
    have hval : (geneIdTop nTFs L - 1) * nTFs + tfIdTop nTFs L = L + nTFs := by
      rw [hgene, htf, hdiv, hk, Nat.mul_comm k nTFs]
    refine ⟨fun _ => ⟨htf, rfl, hval⟩, ?_, ?_⟩
    · rw [hval]
      constructor
      · intro h
        omega
      · intro h
        exact absurd ⟨k, hk⟩ h
    · intro names hlen hLeq
      have hgenes : L / nTFs = nGenes := by
        rw [hLeq]; exact Nat.mul_div_cancel_left nGenes hT
      refine ⟨by simp [geneIdTop, hgenes], ?_⟩
      rw [show geneIdTop nTFs L = nGenes + 1 from by simp [geneIdTop, hgenes]]
      simp only [colnameAt, if_pos (Nat.le_add_left 1 nGenes), Nat.add_sub_cancel]
      exact List.get?_eq_none.2 (le_of_eq hlen)
  · have hmod : L % nTFs ≠ 0 := by
      intro h0
      exact hd (Nat.dvd_iff_mod_eq_zero.2 h0)
    have htf : tfIdTop nTFs L = L % nTFs := by simp [tfIdTop, tfIdTopRaw, hmod]
    have hval : (geneIdTop nTFs L - 1) * nTFs + tfIdTop nTFs L = L := by
      rw [hgene, htf, Nat.mul_comm, Nat.div_add_mod]
    refine ⟨fun h => absurd h hd, ⟨fun _ => hd, fun _ => hval⟩, ?_⟩
    intro names hlen hLeq
    exact absurd (hLeq ▸ Dvd.intro nGenes rfl) hd

/-- Witness for C5 at `nTFs = 2`, `nGenes = 3`, `L = 6`. -/
theorem c5_index_inversion_failure_witness :
    tfIdTop 2 6 = 2 ∧ geneIdTop 2 6 = 4 ∧
    (geneIdTop 2 6 - 1) * 2 + tfIdTop 2 6 = 6 + 2 ∧
    colnameAt ["g1", "g2", "g3"] (geneIdTop 2 6) = none := by
  have h := c5_index_inversion_failure 2 3 6 (by decide) (by decide) (by decide)
  obtain ⟨h1, _, h3⟩ := h
  obtain ⟨ha, _, hc⟩ := h1 (by decide)
  obtain ⟨hd, he⟩ := h3 ["g1", "g2", "g3"] rfl rfl
  exact ⟨ha, by rw [hd], hc, he⟩

/-- C9: in the PANDA expression preprocessing a gene row is kept if
and only if its count of entries that are neither NA nor zero is
strictly greater than 20; every row with exactly 20 valid entries is
removed. -/
theorem c9_row_filter_threshold (rows : List Row) (r : Row) :
    (r ∈ filteredExp rows ↔ r ∈ rows ∧ 20 < validCount r) ∧
    (validCount r = 20 → r ∉ filteredExp rows) := by
  refine ⟨mem_filteredExp rows r, fun h20 hmem => ?_⟩
  rcases (mem_filteredExp rows r).1 hmem with ⟨_, hgt⟩
  omega

/-- Witness for C9: a concrete row with exactly 20 valid entries is
removed. -/
theorem c9_row_filter_threshold_witness :
    List.replicate 20 (some (1 : ℤ)) ∉
      filteredExp [List.replicate 20 (some (1 : ℤ))] :=
  (c9_row_filter_threshold [List.replicate 20 (some 1)]
    (List.replicate 20 (some 1))).2 (by decide)

/-- C1 fails as stated: not every computational step is a single
library call; the top-edges cell `pandaC19` implements hand-written
column-major index arithmetic with `%/%` and `%%`. -/
theorem c1_counterexample :
    (pandaCodeCells.all fun c => c.all isLibCallStep) = false ∧
    pandaC19 ∈ pandaCodeCells ∧
    "%/%" ∈ cellOps pandaC19 ∧ "%%" ∈ cellOps pandaC19 ∧
    (pandaC19.all isLibCallStep) = false := by
  decide

/-- C1 amended: every analytical step (data simulation, penalty
estimation, partial correlation, p-value computation, network
construction, degree computation, enrichment testing) is a single
parameterized library call, but the two top-edges cells implement
hand-written index arithmetic (`%/%`, `%%`) and the signature-name
cell implements string-processing loops; the DRAGON notebook has
neither. -/
theorem c1_amended_analysis_steps_single_calls :
    ((pandaStmts ++ dragonStmts).all fun s => !(mentionsAnalysis s) || isLibCallStep s) = true ∧
    pandaCodeCells.filter (fun c => (cellOps c).any (fun o => o == "%/%" || o == "%%"))
      = [pandaC19, pandaC23] ∧
    pandaCodeCells.filter (fun c => c.any RStmt.hasFor) = [pandaC35] ∧
    (pandaC35.any fun s => s.fns.any (fun f => f ∈ ["substr", "nchar", "paste", "gsub"])) = true ∧
    (dragonCodeCells.all fun c =>
      ((cellOps c).all fun o => !(o == "%/%" || o == "%%")) && !(c.any RStmt.hasFor)) = true := by
  decide

/-- C2 fails as stated: the PANDA notebook has code cells with
conditional branches (`pandaC2`, `pandaC3`) and with loops
(`pandaC35`). -/
theorem c2_counterexample :
    (pandaCodeCells.all fun c => !cellHasCondOrLoop c) = false ∧
    pandaC2 ∈ pandaCodeCells ∧ cellHasCondOrLoop pandaC2 = true ∧
    pandaC35 ∈ pandaCodeCells ∧ (pandaC35.any RStmt.hasFor) = true := by
  decide

/-- C2 amended: no DRAGON code cell contains a conditional branch or a
loop; in the PANDA notebook exactly three cells do - the
local-installation cell, the data-path cell and the signature-name
cell - and all other cells contain neither. -/
theorem c2_amended_control_flow_cells :
    (dragonCodeCells.all fun c => !cellHasCondOrLoop c) = true ∧
    pandaCodeCells.filter cellHasCondOrLoop = [pandaC2, pandaC3, pandaC35] := by
  decide

/-- C3 fails as stated: the DRAGON notebook already calls three
distinct library analysis functions between simulating its data and
visualizing the results. -/
theorem c3_counterexample : ¬dragonAnalysisCalled.length ≤ 2 := by
  decide

/-- C3 amended: the DRAGON notebook calls three distinct library
analysis functions (penalty estimation, partial correlation, p-value
estimation) and the PANDA notebook calls four (`panda`, `calcDegree`,
`calcDegreeDifference`, `fgsea`). -/
theorem c3_amended_analysis_call_counts :
    dragonAnalysisCalled = ["estimate_penalty_parameters_dragon",
      "get_partial_correlation_dragon", "estimate_p_values_dragon"] ∧
    pandaAnalysisCalled = ["panda", "calcDegree", "calcDegreeDifference", "fgsea"] ∧
    dragonAnalysisCalled.length = 3 ∧ pandaAnalysisCalled.length = 4 := by
  decide

/-- C6 fails as stated: the expression table handed to `panda` is not
the table as produced by `read.delim`; on a concrete one-row table the
notebook preprocessing (log transform, valid-count row filter, column
selection) changes it. -/
theorem c6_counterexample :
    pandaInputLCL (fun x => x) ⟨["s1"], [[some 1]]⟩ ["s1"] ≠
      (⟨["s1"], [[some 1]]⟩ : ExpTable) := by
  decide

/-- C6 amended: the motif and PPI tables are assigned exactly once,
directly from `read.delim`, and handed to `panda` as produced; the
expression table, by contrast, is preconditioned by the notebook - the
`log2(x+1)` transform, removal of rows with at most 20 valid entries,
and sample-column selection - before being handed to `panda`, and the
table `panda` receives is characterized row by row by that pipeline. -/
theorem c6_amended_expression_preconditioning :
    (∀ (f : ℤ → ℤ) (t : ExpTable) (samples : List String) (r : Row),
      r ∈ (pandaInputLCL f t samples).rows ↔
        ∃ row ∈ t.rows, 20 < validCount (logRow f row) ∧
          r = selectRow t.header samples (logRow f row)) ∧
    (rhsAssignedTo "motif" pandaStmts).map spineHead = [some "read.delim"] ∧
    (rhsAssignedTo "ppi" pandaStmts).map spineHead = [some "read.delim"] ∧
    (rhsAssignedTo "exp" pandaStmts).map spineHead
      = [some "read.delim", some "log2", none] ∧
    ((stmtsCalls pandaStmts).filter (fun c => c.1 == "panda")).map (fun c => c.2.head?)
      = [some (var "motif"), some (var "motif")] ∧
    ((stmtsCalls pandaStmts).filter (fun c => c.1 == "panda")).map (fun c => c.2.get? 1)
      = [some (var "lcl_exp"), some (var "wb_exp")] ∧
    ((stmtsCalls pandaStmts).filter (fun c => c.1 == "panda")).map (fun c => c.2.get? 2)
      = [some (var "ppi"), some (var "ppi")] := by
  exact ⟨fun f t samples r => mem_pandaInputLCL f t samples r,
    by decide, by decide, by decide, by decide, by decide, by decide⟩

/-- Witness for C6 amended: a concrete surviving row of the
preprocessed table, obtained through the characterization. -/
theorem c6_amended_expression_preconditioning_witness :
    List.replicate 21 (some (2 : ℤ)) ∈
      (pandaInputLCL (fun x => x)
        ⟨List.replicate 21 "s1", [List.replicate 21 (some 1)]⟩ ["s1"]).rows :=
  (c6_amended_expression_preconditioning.1 (fun x => x)
      ⟨List.replicate 21 "s1", [List.replicate 21 (some 1)]⟩ ["s1"]
      (List.replicate 21 (some 2))).2
    ⟨List.replicate 21 (some 1), by decide, by decide, by decide⟩

/-- C7: neither notebook contains an error-handling construct (no
try-catch statement, no call to an error-handling routine), and under
the sequential semantics every error raised at top level is exactly an
error raised by some library call of the notebook - no recovery or
translation logic intervenes. -/
theorem c7_errors_propagate_unhandled :
    ((pandaStmts ++ dragonStmts).all fun s => !s.hasTry) = true ∧
    ((stmtsFns (pandaStmts ++ dragonStmts)).all fun f => !(decide (f ∈ errorHandlingFns))) = true ∧
    (∀ (oracle : String → Option ℕ) (br : RExpr → Bool) (iter : RExpr → ℕ) (err : ℕ),
      runStmts oracle br iter pandaStmts = .error err →
        ∃ f ∈ stmtsFns pandaStmts, oracle f = some err) ∧
    (∀ (oracle : String → Option ℕ) (br : RExpr → Bool) (iter : RExpr → ℕ) (err : ℕ),
      runStmts oracle br iter dragonStmts = .error err →
        ∃ f ∈ stmtsFns dragonStmts, oracle f = some err) := by
  refine ⟨by decide, by decide, ?_, ?_⟩
  · intro oracle br iter err h
    exact runStmts_error oracle br iter pandaStmts (by decide) err h
  · intro oracle br iter err h
    exact runStmts_error oracle br iter dragonStmts (by decide) err h

/-- Witness for C7: under an oracle that makes the data-simulation
call raise condition 3, the DRAGON run ends in exactly that error, and
the theorem locates it at a library call of the notebook. -/
theorem c7_errors_propagate_unhandled_witness :
    ∃ f ∈ stmtsFns dragonStmts, c7Oracle f = some 3 :=
  c7_errors_propagate_unhandled.2.2.2 c7Oracle (fun _ => false) (fun _ => 0) 3 rfl

/-- C8: the PANDA notebook reads exactly seven flat files - the
delimited motif, PPI, expression and two sample-id text files, the GMT
pathway file and the ranked-gene .rnk file - and the DRAGON notebook
reads none. -/
theorem c8_flat_file_inputs :
    filesRead pandaStmts = ["motif_subset.txt", "ppi_subset.txt",
      "expression_tpm_lcl_blood_subset.txt", "LCL_samples.txt",
      "WholeBlood_samples.txt", "c2.cp.kegg.v7.0.symbols.gmt",
      "lclWB_indegreeDifference.rnk"] ∧
    (filesRead pandaStmts).length = 7 ∧
    (readerCalls pandaStmts).map Prod.fst = ["read.delim", "read.delim", "read.delim",
      "read.delim", "read.delim", "gmtPathways", "read.delim"] ∧
    (readerCalls pandaStmts).length = 7 ∧
    readerCalls dragonStmts = [] ∧ filesRead dragonStmts = [] := by
  decide

/-- C10: no code cell of either notebook calls a thread-, process- or
asynchronous-task-creating routine, no parallel operator occurs, and
the only modules loaded are the five R packages and four Python
modules of the loading cells. -/
theorem c10_no_concurrency :
    ((stmtsFns (pandaStmts ++ dragonStmts)).all fun f => !(decide (f ∈ concurrencyFns))) = true ∧
    ((stmtsOps (pandaStmts ++ dragonStmts)).all fun o => !(o == "%dopar%")) = true ∧
    moduleLoads pandaStmts
      = ["devtools", "netZooR", "fgsea", "ggplot2", "reshape2", "visNetwork"] ∧
    moduleLoads dragonStmts
      = ["netZooPy.dragon", "matplotlib.pyplot", "numpy", "mpl_toolkits.mplot3d"] := by
  decide

end Netbooks
